import Mathlib

/-!
Shallow embedding of the StudyMixer `app.py` generation handler.

The embedding models the single user-triggered generation cycle: temp-file
creation, remote upload, extension branching, content assembly, model
invocation, result storage and cleanup.  External collaborators (the upload
API, the PDF page loader, the text splitter, the model client and the remote
delete call) are parameters of the cycle, mirroring the fact that the script
only sequences calls to them.
-/

namespace StudyMixer

/-- Python `str.lower` restricted to what `pathlib` suffixes contain:
ASCII upper-case letters are shifted by 32, everything else is unchanged.
This is `Char.toLower` from core Lean, which matches CPython for ASCII. -/
def lowerChar (c : Char) : Char := Char.toLower c

/-- Index of the last occurrence of a dot in a character list, mirroring
Python `str.rfind` specialised to the one call site `name.rfind(chr(46))`
inside `pathlib.PurePath.suffix` and `.stem`. -/
def lastDotIdx : List Char → Option Nat
  | [] => none
  | c :: rest =>
    match lastDotIdx rest with
    | some i => some (i + 1)
    | none => if c = '.' then some 0 else none

/-- Character-level `pathlib.PurePath.suffix`: the trailing part from the last
dot when that dot is neither the first nor the last character, else empty. -/
def suffixData (cs : List Char) : List Char :=
  match lastDotIdx cs with
  | some i => if 0 < i ∧ i + 1 < cs.length then cs.drop i else []
  | none => []

/-- Character-level `pathlib.PurePath.stem`: the part before the last dot when
that dot is neither the first nor the last character, else the whole name. -/
def stemData (cs : List Char) : List Char :=
  match lastDotIdx cs with
  | some i => if 0 < i ∧ i + 1 < cs.length then cs.take i else cs
  | none => cs

/-- String wrapper for `suffixData`: `Path(name).suffix`. -/
def pathSuffix (s : String) : String := ⟨suffixData s.data⟩

/-- String wrapper for `stemData`: `Path(name).stem` (line 115 of app.py). -/
def pathStem (s : String) : String := ⟨stemData s.data⟩

/-- Python `str.lower` on a whole string. -/
def lowerString (s : String) : String := ⟨s.data.map lowerChar⟩

/-- Line 64 of app.py: `Path(uploaded_file.name).suffix.lower()`. -/
def suffixLower (s : String) : String := lowerString (pathSuffix s)

/-- Coarse file category derived from the extension (spec glossary). -/
inductive FileKind
  | pdf
  | image
  | audio
  | unsupported
deriving DecidableEq

/-- Extension branching of lines 80-105 of app.py, expressed as the file-kind
each branch handles: `.pdf`, then the image list, then the audio list, then
the unsupported fallthrough.  The argument is the already lower-cased
extension. -/
def classifyExt (ext : String) : FileKind :=
  if ext = ".pdf" then FileKind.pdf
  else if ext = ".jpg" ∨ ext = ".jpeg" ∨ ext = ".png" then FileKind.image
  else if ext = ".mp3" ∨ ext = ".wav" then FileKind.audio
  else FileKind.unsupported

/-- File-kind classification of a filename: branch on the lower-cased
suffix, as app.py lines 64 and 80-105 do. -/
def classifyName (name : String) : FileKind := classifyExt (suffixLower name)

/-- The same filename with its extension lower-cased and the rest untouched:
the comparison point for extension case-insensitivity. -/
def lowerSuffixName (name : String) : String :=
  ⟨stemData name.data ++ (suffixData name.data).map lowerChar⟩

/-- One unit of input handed to the model call: text, or the opaque
reference to a previously uploaded binary (identified by its handle name). -/
inductive ContentPart
  | text (s : String)
  | fileRef (handle : String)
deriving DecidableEq

/-- Fixed instructional string of the image branch (line 95 of app.py). -/
def imagePromptText : String :=
  "以下の画像は講義の板書または重要な図です。この画像の内容を完全に理解し、それに基づいた問題を生成してください。"

/-- Fixed instructional string of the audio branch (line 99 of app.py). -/
def audioPromptText : String :=
  "以下の音声ファイルは講義の録音です。まず内容を完全に文字起こしし、その文字起こし内容だけを参照して問題を生成してください。"

/-- The f-string `final_prompt_text` of lines 114-118 of app.py, literal
segments interleaved with the four interpolations. -/
def finalPrompt (name difficulty formatType professorFocus : String) : String :=
  "\n        あなたは**" ++ pathStem name ++ "**の専門家です。\n        【生成ルール】: 難易度: "
    ++ difficulty ++ " / 形式: " ++ formatType ++ " / 焦点: " ++ professorFocus
    ++ "\n        このルールに従い、問題と模範解答を計5問作成してください。\n        "

/-- Model-side feedback attached to a response.  `blockReason = some r`
models a truthy `prompt_feedback.block_reason` whose `str` is `r`;
`blockReasonMessage` models `block_reason_message`, with the empty string
standing for a falsy (missing or empty) message. -/
structure PromptFeedback where
  blockReason : Option String
  blockReasonMessage : String
deriving DecidableEq

/-- A model response: its `parts` list, the `text` accessor (read only when
`parts` is non-empty), and `prompt_feedback`, where `none` also covers the
case in which reading the feedback raises (the inner `try`/`except` of
lines 134-138 of app.py). -/
structure ModelResponse where
  parts : List String
  text : String
  promptFeedback : Option PromptFeedback
deriving DecidableEq

/-- Lines 133-138 of app.py: the reason string shown for a blocked response.
Starts as the fallback, replaced by `block_reason_message or
str(block_reason)` when feedback with a truthy block reason is readable. -/
def feedbackReason (resp : ModelResponse) : String :=
  match resp.promptFeedback with
  | none => "不明な理由"
  | some fb =>
    match fb.blockReason with
    | none => "不明な理由"
    | some r => if fb.blockReasonMessage = "" then r else fb.blockReasonMessage

/-- Lines 127-144 of app.py: the value stored into the generated-content
session slot for each outcome of
`model.generate_content`: the response text when parts exist, the formatted
block-failure message when not, and the formatted exception message when the
call raises. -/
def storedResult : Except String ModelResponse → String
  | Except.ok resp =>
    if resp.parts = [] then
      "エラー: AI応答の取得に失敗しました (" ++ feedbackReason resp ++ ")"
    else resp.text
  | Except.error e => "エラー: " ++ e

/-- The inputs of one generation cycle: UI selections plus the behaviour of
each external collaborator.  `upload` models `genai.upload_file` (returning
the handle name), `loadPages` the PyPDFLoader page texts, `split` the
`CharacterTextSplitter` (chunk size and overlap to chunk texts), `generate`
the model call on the assembled parts, `deleteFile` the remote delete. -/
structure Env where
  fileName : String
  difficulty : String
  formatType : String
  professorFocus : String
  upload : Except String String
  loadPages : Except String (List String)
  split : Nat → Nat → List String → List String
  generate : List ContentPart → Except String ModelResponse
  deleteFile : String → Except String Unit

/-- Observable outcome of one cycle: the stored result slot, which external
calls were attempted, whether the local temp file still exists, the content
list handed to the model (when the model was invoked), and the UI error and
warning messages emitted. -/
structure CycleResult where
  generatedContent : String
  uploadAttempted : Bool
  generateAttempted : Bool
  deleteAttempted : Bool
  tempFileExists : Bool
  sentContents : Option (List ContentPart)
  errors : List String
  warnings : List String
deriving DecidableEq

/-- Lines 147-156 of app.py: the `finally` block run after the model call.
The remote delete is attempted (the handle is always set on this path); a
delete failure is downgraded to a warning; the temp file is then removed. -/
def finishCycle (env : Env) (handle : String) (stored : String)
    (contents : List ContentPart) (errs : List String) : CycleResult :=
  match env.deleteFile handle with
  | Except.ok _ =>
    { generatedContent := stored, uploadAttempted := true, generateAttempted := true,
      deleteAttempted := true, tempFileExists := false,
      sentContents := some contents, errors := errs, warnings := [] }
  | Except.error ce =>
    { generatedContent := stored, uploadAttempted := true, generateAttempted := true,
      deleteAttempted := true, tempFileExists := false,
      sentContents := some contents, errors := errs,
      warnings := ["Geminiファイル削除中にエラー: " ++ ce] }

/-- Lines 112-156 of app.py: prompt construction (`insert(0, ...)` after the
per-kind parts were appended), the single `generate_content` call, result or
error storage, and the `finally` cleanup. -/
def runGeneratePhase (env : Env) (handle : String) (tailParts : List ContentPart) : CycleResult :=
  let prompt := finalPrompt env.fileName env.difficulty env.formatType env.professorFocus
  let contents := ContentPart.text prompt :: tailParts
  let result := env.generate contents
  let errs :=
    match result with
    | Except.ok resp =>
      if resp.parts = [] then ["AIが応答を生成できませんでした。理由: " ++ feedbackReason resp]
      else []
    | Except.error e => ["AI生成エラーが発生しました: " ++ e]
  finishCycle env handle (storedResult result) contents errs

/-- Lines 56-156 of app.py: one full generation cycle.  `prev` is the value
the result slot held before the cycle; line 59 overwrites it with the empty
string before anything else runs, so the outcome never depends on it.  The
early-exit paths model `st.stop()` raising a `StopException`, which the
outer `except Exception` clause of line 107 catches (StopException derives
from Exception), so those paths also run line 109's temp-file removal and
emit the outer error message (whose interpolated exception text is empty);
the remote delete of the `finally` block is never reached on them. -/
def runCycle (_prev : String) (env : Env) : CycleResult :=
  let ext := suffixLower env.fileName
  match env.upload with
  | Except.error e =>
    { generatedContent := "", uploadAttempted := true, generateAttempted := false,
      deleteAttempted := false, tempFileExists := false, sentContents := none,
      errors := ["ファイル処理またはアップロードエラー: " ++ e], warnings := [] }
  | Except.ok handle =>
    if ext = ".pdf" then
      match env.loadPages with
      | Except.error pe =>
        { generatedContent := "", uploadAttempted := true, generateAttempted := false,
          deleteAttempted := false, tempFileExists := false, sentContents := none,
          errors := ["PDF解析エラー: " ++ pe, "ファイル処理またはアップロードエラー: "],
          warnings := [] }
      | Except.ok pages =>
        let context := String.intercalate "\n\n" (env.split 1000 0 pages)
        runGeneratePhase env handle
          [ContentPart.text context, ContentPart.fileRef handle]
    else if ext = ".jpg" ∨ ext = ".jpeg" ∨ ext = ".png" then
      runGeneratePhase env handle
        [ContentPart.text imagePromptText, ContentPart.fileRef handle]
    else if ext = ".mp3" ∨ ext = ".wav" then
      runGeneratePhase env handle
        [ContentPart.text audioPromptText, ContentPart.fileRef handle]
    else
      { generatedContent := "", uploadAttempted := true, generateAttempted := false,
        deleteAttempted := false, tempFileExists := false, sentContents := none,
        errors := ["ファイル処理またはアップロードエラー: "],
        warnings := ["サポートされていないファイル形式です。"] }

/-- Concrete cycle inputs with an unsupported extension: every collaborator
would succeed, so any failure observed comes from classification alone. -/
def envTxt : Env :=
  { fileName := "notes.txt", difficulty := "標準", formatType := "論述形式",
    professorFocus := "要点", upload := Except.ok "files/u1",
    loadPages := Except.ok ["page one"], split := fun _ _ ps => ps,
    generate := fun _ => Except.ok ⟨["part0"], "generated text", none⟩,
    deleteFile := fun _ => Except.ok () }

/-- Concrete cycle inputs for a PDF whose page extraction raises: the upload
succeeds (so a remote file reference exists) and then extraction fails. -/
def envPdfBroken : Env :=
  { fileName := "doc.pdf", difficulty := "標準", formatType := "論述形式",
    professorFocus := "", upload := Except.ok "files/u2",
    loadPages := Except.error "broken pdf", split := fun _ _ ps => ps,
    generate := fun _ => Except.ok ⟨["part0"], "generated text", none⟩,
    deleteFile := fun _ => Except.ok () }

/-- Concrete cycle inputs for a successful PDF run with two pages and an
identity splitter. -/
def envPdfOk : Env :=
  { fileName := "doc.pdf", difficulty := "標準", formatType := "論述形式",
    professorFocus := "", upload := Except.ok "files/u4",
    loadPages := Except.ok ["alpha", "beta"], split := fun _ _ ps => ps,
    generate := fun _ => Except.ok ⟨["part0"], "generated text", none⟩,
    deleteFile := fun _ => Except.ok () }

/-- Concrete cycle inputs for an image run whose remote delete fails. -/
def envDelFail : Env :=
  { fileName := "pic.png", difficulty := "標準", formatType := "一問一答形式",
    professorFocus := "", upload := Except.ok "files/u3",
    loadPages := Except.ok [], split := fun _ _ ps => ps,
    generate := fun _ => Except.ok ⟨["part0"], "ok text", none⟩,
    deleteFile := fun _ => Except.error "denied" }

/-- Concrete blocked model response carrying a readable block reason. -/
def blockedResp : ModelResponse :=
  ⟨[], "", some ⟨some "SAFETY", ""⟩⟩

/-- Substring containment: `t` occurs verbatim inside `s`. -/
def containsStr (s t : String) : Prop := ∃ a b : String, s = a ++ (t ++ b)

/- ------------------------------------------------------------------ -/
/- Helper lemmas                                                      -/
/- ------------------------------------------------------------------ -/

theorem strAssoc (a b c : String) : a ++ b ++ c = a ++ (b ++ c) :=
  String.ext (by simp [List.append_assoc])

theorem toNat_ofNat_valid (n : Nat) (h : n.isValidChar) : (Char.ofNat n).toNat = n := by
  rw [Char.ofNat, dif_pos h]
  rfl

theorem lowerChar_toNat (c : Char) (h : 65 ≤ c.toNat ∧ c.toNat ≤ 90) :
    (lowerChar c).toNat = c.toNat + 32 := by
  have hv : (c.toNat + 32).isValidChar := Or.inl (by omega)
  rw [lowerChar, Char.toLower, if_pos (by exact ⟨h.1, h.2⟩)]
  exact toNat_ofNat_valid _ hv

theorem lowerChar_eq_dot (c : Char) (h : lowerChar c = '.') : c = '.' := by
  by_cases hc : 65 ≤ c.toNat ∧ c.toNat ≤ 90
  · exfalso
    have := lowerChar_toNat c hc
    rw [h] at this
    have hdot : ('.' : Char).toNat = 46 := by decide
    omega
  · rw [lowerChar, Char.toLower] at h
    simp only [ge_iff_le] at h
    rw [if_neg (by exact fun hh => hc ⟨hh.1, hh.2⟩)] at h
    exact h

theorem lowerChar_dot : lowerChar '.' = '.' := by decide

theorem lowerChar_idem (c : Char) : lowerChar (lowerChar c) = lowerChar c := by
  by_cases hc : 65 ≤ c.toNat ∧ c.toNat ≤ 90
  · have h1 := lowerChar_toNat c hc
    rw [lowerChar, Char.toLower]
    simp only [ge_iff_le]
    rw [if_neg (by omega)]
  · have h0 : lowerChar c = c := by
      rw [lowerChar, Char.toLower]
      simp only [ge_iff_le]
      rw [if_neg (by exact fun hh => hc ⟨hh.1, hh.2⟩)]
    rw [h0, h0]

theorem lastDotIdx_lt (cs : List Char) (j : Nat) (h : lastDotIdx cs = some j) :
    j < cs.length := by
  induction cs generalizing j with
  | nil => simp [lastDotIdx] at h
  | cons c rest ih =>
    rw [lastDotIdx] at h
    cases hr : lastDotIdx rest with
    | some i =>
      rw [hr] at h
      injection h with h
      subst h
      have := ih i hr
      simp only [List.length_cons]
      omega
    | none =>
      rw [hr] at h
      by_cases hc : c = '.'
      · rw [if_pos hc] at h
        injection h with h
        subst h
        simp
      · rw [if_neg hc] at h
        cases h

theorem lastDotIdx_append (xs ys : List Char) :
    lastDotIdx (xs ++ ys) =
      match lastDotIdx ys with
      | some j => some (xs.length + j)
      | none => lastDotIdx xs := by
  induction xs with
  | nil => cases h : lastDotIdx ys <;> simp [h, lastDotIdx]
  | cons c rest ih =>
    rw [List.cons_append, lastDotIdx, ih]
    cases hy : lastDotIdx ys with
    | some j =>
      simp only [List.length_cons, Option.some.injEq]
      omega
    | none => simp [lastDotIdx]

theorem lastDotIdx_map_lower (cs : List Char) :
    lastDotIdx (cs.map lowerChar) = lastDotIdx cs := by
  induction cs with
  | nil => rfl
  | cons c rest ih =>
    simp only [List.map_cons, lastDotIdx]
    rw [ih]
    cases hr : lastDotIdx rest with
    | some i => rfl
    | none =>
      by_cases hc : c = '.'
      · subst hc
        rw [lowerChar_dot]
      · have hlc : lowerChar c ≠ '.' := fun h => hc (lowerChar_eq_dot c h)
        simp [hc, hlc]

theorem mapLower_idem (l : List Char) :
    (l.map lowerChar).map lowerChar = l.map lowerChar := by
  induction l with
  | nil => rfl
  | cons c r ih => simp [ih, lowerChar_idem]

theorem suffixData_combined (cs : List Char) :
    suffixData (stemData cs ++ (suffixData cs).map lowerChar) =
      (suffixData cs).map lowerChar := by
  cases hd : lastDotIdx cs with
  | none =>
    have hsuf : suffixData cs = [] := by simp [suffixData, hd]
    have hstem : stemData cs = cs := by simp [stemData, hd]
    rw [hsuf, hstem]
    simp [hsuf]
  | some i =>
    by_cases hcond : 0 < i ∧ i + 1 < cs.length
    · have hsuf : suffixData cs = cs.drop i := by simp [suffixData, hd, hcond]
      have hstem : stemData cs = cs.take i := by simp [stemData, hd, hcond]
      have hlen_take : (cs.take i).length = i := by
        rw [List.length_take]
        omega
      have hsplit := lastDotIdx_append (cs.take i) (cs.drop i)
      rw [List.take_append_drop, hd] at hsplit
      have hdrop : lastDotIdx (cs.drop i) = some 0 := by
        cases hdd : lastDotIdx (cs.drop i) with
        | some j =>
          rw [hdd] at hsplit
          injection hsplit with hij
          rw [hlen_take] at hij
          exact congrArg some (by omega)
        | none =>
          rw [hdd] at hsplit
          have hlt := lastDotIdx_lt (cs.take i) i hsplit.symm
          rw [hlen_take] at hlt
          omega
      have hmap : lastDotIdx ((cs.drop i).map lowerChar) = some 0 := by
        rw [lastDotIdx_map_lower]
        exact hdrop
      have hcomb := lastDotIdx_append (cs.take i) ((cs.drop i).map lowerChar)
      rw [hmap] at hcomb
      have hcomb' : lastDotIdx (cs.take i ++ (cs.drop i).map lowerChar) = some i := by
        rw [hcomb, hlen_take]
        simp
      have hlen_comb : (cs.take i ++ (cs.drop i).map lowerChar).length = cs.length := by
        simp only [List.length_append, List.length_map, hlen_take, List.length_drop]
        omega
      rw [hsuf, hstem]
      simp only [suffixData, hcomb']
      rw [if_pos ⟨hcond.1, by rw [hlen_comb]; exact hcond.2⟩]
      exact List.drop_left' hlen_take
    · have hsuf : suffixData cs = [] := by simp [suffixData, hd, hcond]
      have hstem : stemData cs = cs := by simp [stemData, hd, hcond]
      rw [hsuf, hstem]
      simp [hsuf]

theorem finishCycle_spec (env : Env) (handle stored : String)
    (contents : List ContentPart) (errs : List String) :
    (finishCycle env handle stored contents errs).generatedContent = stored ∧
    (finishCycle env handle stored contents errs).generateAttempted = true ∧
    (finishCycle env handle stored contents errs).deleteAttempted = true ∧
    (finishCycle env handle stored contents errs).tempFileExists = false ∧
    (finishCycle env handle stored contents errs).sentContents = some contents := by
  unfold finishCycle
  cases env.deleteFile handle <;> exact ⟨rfl, rfl, rfl, rfl, rfl⟩

theorem runGeneratePhase_spec (env : Env) (handle : String) (t : List ContentPart) :
    (runGeneratePhase env handle t).tempFileExists = false ∧
    (runGeneratePhase env handle t).generateAttempted = true ∧
    (runGeneratePhase env handle t).deleteAttempted = true ∧
    (runGeneratePhase env handle t).sentContents =
      some (ContentPart.text
        (finalPrompt env.fileName env.difficulty env.formatType env.professorFocus) :: t) ∧
    (runGeneratePhase env handle t).generatedContent =
      storedResult (env.generate (ContentPart.text
        (finalPrompt env.fileName env.difficulty env.formatType env.professorFocus) :: t)) := by
  simp only [runGeneratePhase]
  obtain ⟨f1, f2, f3, f4, f5⟩ := finishCycle_spec env handle
    (storedResult (env.generate (ContentPart.text
      (finalPrompt env.fileName env.difficulty env.formatType env.professorFocus) :: t)))
    (ContentPart.text
      (finalPrompt env.fileName env.difficulty env.formatType env.professorFocus) :: t)
    (match env.generate (ContentPart.text
        (finalPrompt env.fileName env.difficulty env.formatType env.professorFocus) :: t) with
      | Except.ok resp =>
        if resp.parts = [] then ["AIが応答を生成できませんでした。理由: " ++ feedbackReason resp]
        else []
      | Except.error e => ["AI生成エラーが発生しました: " ++ e])
  exact ⟨f4, f2, f3, f5, f1⟩

theorem runCycle_cases (p : String) (env : Env) :
    (runCycle p env).tempFileExists = false ∧
    ((runCycle p env).generateAttempted = true → (runCycle p env).deleteAttempted = true) ∧
    ((runCycle p env).generateAttempted = false →
      (runCycle p env).generatedContent = "" ∧ (runCycle p env).sentContents = none) ∧
    (∀ contents, (runCycle p env).sentContents = some contents →
      ∃ t, contents = ContentPart.text
          (finalPrompt env.fileName env.difficulty env.formatType env.professorFocus) :: t ∧
        (runCycle p env).generatedContent = storedResult (env.generate contents)) := by
  unfold runCycle
  rcases hu : env.upload with e | handle <;> simp only [hu]
  · refine ⟨by trivial, ?_, ?_, ?_⟩
    · intro h; cases h
    · intro _; exact ⟨by trivial, by trivial⟩
    · intro c hc; cases hc
  · split_ifs with h1 h2 h3
    · rcases hl : env.loadPages with pe | pages <;> simp only [hl]
      · refine ⟨by trivial, ?_, ?_, ?_⟩
        · intro h; cases h
        · intro _; exact ⟨by trivial, by trivial⟩
        · intro c hc; cases hc
      · obtain ⟨t1, t2, t3, t4, t5⟩ := runGeneratePhase_spec env handle
          [ContentPart.text (String.intercalate "\n\n" (env.split 1000 0 pages)),
           ContentPart.fileRef handle]
        refine ⟨t1, fun _ => t3, ?_, ?_⟩
        · intro hfalse; rw [t2] at hfalse; cases hfalse
        · intro contents hc
          rw [t4] at hc
          injection hc with hc
          exact ⟨_, hc.symm, by rw [t5, hc]⟩
    · obtain ⟨t1, t2, t3, t4, t5⟩ := runGeneratePhase_spec env handle
        [ContentPart.text imagePromptText, ContentPart.fileRef handle]
      refine ⟨t1, fun _ => t3, ?_, ?_⟩
      · intro hfalse; rw [t2] at hfalse; cases hfalse
      · intro contents hc
        rw [t4] at hc
        injection hc with hc
        exact ⟨_, hc.symm, by rw [t5, hc]⟩
    · obtain ⟨t1, t2, t3, t4, t5⟩ := runGeneratePhase_spec env handle
        [ContentPart.text audioPromptText, ContentPart.fileRef handle]
      refine ⟨t1, fun _ => t3, ?_, ?_⟩
      · intro hfalse; rw [t2] at hfalse; cases hfalse
      · intro contents hc
        rw [t4] at hc
        injection hc with hc
        exact ⟨_, hc.symm, by rw [t5, hc]⟩
    · refine ⟨by trivial, ?_, ?_, ?_⟩
      · intro h; cases h
      · intro _; exact ⟨by trivial, by trivial⟩
      · intro c hc; cases hc

theorem runCycle_unsupported_no_model (p : String) (env : Env)
    (h : classifyName env.fileName = FileKind.unsupported) :
    (runCycle p env).generateAttempted = false ∧
    (runCycle p env).sentContents = none := by
  unfold classifyName classifyExt at h
  split_ifs at h with h1 h2 h3
  unfold runCycle
  rcases hu : env.upload with e | handle <;> simp only [hu]
  · exact ⟨by trivial, by trivial⟩
  · rw [if_neg h1, if_neg h2, if_neg h3]
    exact ⟨by trivial, by trivial⟩

/- ------------------------------------------------------------------ -/
/- Claim theorems                                                     -/
/- ------------------------------------------------------------------ -/

/-- C1 counterexample: the claim that an unsupported-extension cycle fails
before any network call is false on the code.  With the unsupported input
`notes.txt`, the cycle still attempts the remote upload, because
`genai.upload_file` on line 76 of app.py runs before the extension
branching of lines 80-105. -/
theorem c1_counterexample_upload_for_unsupported :
    classifyName envTxt.fileName = FileKind.unsupported ∧
    (runCycle "" envTxt).uploadAttempted = true :=
  ⟨by decide, by rfl⟩

/-- C1 (amended): for every input whose extension is not one of the
supported kinds, the cycle fails with the unsupported-kind classification
before `generate` is attempted — no content list is ever handed to the
model — although the `uploadFile` network call has already been attempted
before the extension branching. -/
theorem c1_amended_unsupported_blocks_generate (p : String) (env : Env)
    (h : classifyName env.fileName = FileKind.unsupported) :
    (runCycle p env).generateAttempted = false ∧
    (runCycle p env).sentContents = none :=
  runCycle_unsupported_no_model p env h

/-- C1 witness: the amended claim applied to the concrete unsupported input
`notes.txt`. -/
theorem c1_amended_witness :
    (runCycle "" envTxt).generateAttempted = false :=
  (c1_amended_unsupported_blocks_generate "" envTxt (by decide)).1

/-- C2 counterexample: the claim that remote-side cleanup is attempted on
every exit path is false on the code.  On the PDF-extraction-failure path
the upload has succeeded, so a remote file reference exists, yet the cycle
ends without ever attempting the remote delete: `st.stop()` on line 92 of
app.py is caught by the outer `except` of line 107, which removes only the
local temp file and stops before the `finally` of line 147 is in scope. -/
theorem c2_counterexample_no_remote_delete :
    envPdfBroken.upload = Except.ok "files/u2" ∧
    (runCycle "" envPdfBroken).deleteAttempted = false :=
  ⟨rfl, by rfl⟩

/-- C2 (amended): the local temporary file is removed on every exit path;
remote-side deletion is attempted on every exit path that reaches the model
invocation (success, blocked response, or generation error), and a failure
of that deletion only adds a warning without replacing the stored primary
result; on the early-exit paths (upload error, PDF extraction error,
unsupported kind) remote deletion is not attempted. -/
theorem c2_amended_cleanup (p : String) (env : Env) (handle stored : String)
    (contents : List ContentPart) (errs : List String) :
    (runCycle p env).tempFileExists = false ∧
    ((runCycle p env).generateAttempted = true → (runCycle p env).deleteAttempted = true) ∧
    (finishCycle env handle stored contents errs).generatedContent = stored ∧
    (∀ msg, env.deleteFile handle = Except.error msg →
      (finishCycle env handle stored contents errs).warnings =
        ["Geminiファイル削除中にエラー: " ++ msg]) := by
  obtain ⟨h1, h2, _, _⟩ := runCycle_cases p env
  obtain ⟨f1, _, _, _, _⟩ := finishCycle_spec env handle stored contents errs
  refine ⟨h1, h2, f1, ?_⟩
  intro msg hm
  unfold finishCycle
  rw [hm]

/-- C2 witness: the amended claim applied to a concrete image cycle whose
remote delete fails — the delete is attempted, the failure becomes a
warning, and the stored result is untouched. -/
theorem c2_amended_cleanup_witness :
    (runCycle "" envDelFail).deleteAttempted = true ∧
    (finishCycle envDelFail "files/u3" "ok text" [] []).warnings =
      ["Geminiファイル削除中にエラー: " ++ "denied"] :=
  ⟨(c2_amended_cleanup "" envDelFail "files/u3" "ok text" [] []).2.1 (by rfl),
   (c2_amended_cleanup "" envDelFail "files/u3" "ok text" [] []).2.2.2 "denied" (by rfl)⟩

/-- C3 counterexample: the claim that the result slot is populated on
completion of every request is false on the code.  A PDF cycle whose
extraction fails completes in failure (error messages were emitted) with
the slot still holding the empty value it was reset to. -/
theorem c3_counterexample_slot_empty_after_failure :
    (runCycle "old" envPdfBroken).errors ≠ [] ∧
    (runCycle "old" envPdfBroken).generatedContent = "" :=
  ⟨by decide, by rfl⟩

/-- C3 (amended): the result slot is reset to the empty value at the start
of every generation request (the outcome is independent of the previous
slot value); it is populated — with the generated text or an error
descriptor — on completion of every request that reaches the model
invocation; requests that fail earlier (unsupported kind, extraction or
upload error) terminate with the slot left empty. -/
theorem c3_amended_slot_lifecycle (p : String) (env : Env) (handle : String)
    (t : List ContentPart) :
    runCycle p env = runCycle "" env ∧
    ((runCycle p env).generateAttempted = false → (runCycle p env).generatedContent = "") ∧
    (runGeneratePhase env handle t).generatedContent =
      storedResult (env.generate (ContentPart.text
        (finalPrompt env.fileName env.difficulty env.formatType env.professorFocus) :: t)) := by
  obtain ⟨_, _, h3, _⟩ := runCycle_cases p env
  exact ⟨rfl, fun hf => (h3 hf).1, (runGeneratePhase_spec env handle t).2.2.2.2⟩

/-- C3 witness: the amended claim applied to the concrete unsupported input,
whose failing request leaves the slot empty. -/
theorem c3_amended_slot_lifecycle_witness :
    (runCycle "anything" envTxt).generatedContent = "" :=
  (c3_amended_slot_lifecycle "anything" envTxt "h" []).2.1 (by rfl)

/-- C4: whenever a content list is handed to the model — for every supported
file-kind and every choice of generation options — its first element is the
generated instruction prompt text. -/
theorem c4_first_part_is_instruction (p : String) (env : Env)
    (contents : List ContentPart)
    (h : (runCycle p env).sentContents = some contents) :
    contents.head? = some (ContentPart.text
      (finalPrompt env.fileName env.difficulty env.formatType env.professorFocus)) := by
  obtain ⟨_, _, _, h4⟩ := runCycle_cases p env
  obtain ⟨t, ht, _⟩ := h4 contents h
  rw [ht]
  rfl

/-- C4 witness: the theorem applied to a concrete successful PDF cycle. -/
theorem c4_first_part_witness :
    ([ContentPart.text (finalPrompt "doc.pdf" "標準" "論述形式" ""),
      ContentPart.text "alpha\n\nbeta",
      ContentPart.fileRef "files/u4"] : List ContentPart).head? =
      some (ContentPart.text (finalPrompt "doc.pdf" "標準" "論述形式" "")) :=
  c4_first_part_is_instruction "" envPdfOk _ (by rfl)

/-- C5: for every choice of difficulty, answer format and instructor-focus
hint, the generated instruction prompt contains all three selected option
values verbatim, contains the document's base filename, and contains the
fixed request for exactly five question/answer pairs (the 計5問 clause). -/
theorem c5_prompt_contains_options (name d f p : String) :
    containsStr (finalPrompt name d f p) d ∧
    containsStr (finalPrompt name d f p) f ∧
    containsStr (finalPrompt name d f p) p ∧
    containsStr (finalPrompt name d f p) (pathStem name) ∧
    containsStr (finalPrompt name d f p) "計5問" := by
  have h5 : ("\n        このルールに従い、問題と模範解答を" ++ ("計5問" ++ "作成してください。\n        ") : String)
      = "\n        このルールに従い、問題と模範解答を計5問作成してください。\n        " := by decide
  refine ⟨?_, ?_, ?_, ?_, ?_⟩
  · exact ⟨"\n        あなたは**" ++ pathStem name ++ "**の専門家です。\n        【生成ルール】: 難易度: ",
      " / 形式: " ++ f ++ " / 焦点: " ++ p
        ++ "\n        このルールに従い、問題と模範解答を計5問作成してください。\n        ",
      by simp only [finalPrompt, strAssoc]⟩
  · exact ⟨"\n        あなたは**" ++ pathStem name ++ "**の専門家です。\n        【生成ルール】: 難易度: "
        ++ d ++ " / 形式: ",
      " / 焦点: " ++ p
        ++ "\n        このルールに従い、問題と模範解答を計5問作成してください。\n        ",
      by simp only [finalPrompt, strAssoc]⟩
  · exact ⟨"\n        あなたは**" ++ pathStem name ++ "**の専門家です。\n        【生成ルール】: 難易度: "
        ++ d ++ " / 形式: " ++ f ++ " / 焦点: ",
      "\n        このルールに従い、問題と模範解答を計5問作成してください。\n        ",
      by simp only [finalPrompt, strAssoc]⟩
  · exact ⟨"\n        あなたは**",
      "**の専門家です。\n        【生成ルール】: 難易度: " ++ d ++ " / 形式: " ++ f ++ " / 焦点: " ++ p
        ++ "\n        このルールに従い、問題と模範解答を計5問作成してください。\n        ",
      by simp only [finalPrompt, strAssoc]⟩
  · refine ⟨"\n        あなたは**" ++ pathStem name ++ "**の専門家です。\n        【生成ルール】: 難易度: "
        ++ d ++ " / 形式: " ++ f ++ " / 焦点: " ++ p ++ "\n        このルールに従い、問題と模範解答を",
      "作成してください。\n        ", ?_⟩
    rw [finalPrompt, ← h5]
    simp only [strAssoc]

/-- C6: file-kind classification from the extension maps `.pdf` to pdf,
`.png`, `.jpg` and `.jpeg` to image, `.mp3` and `.wav` to audio, and every
other extension to unsupported. -/
theorem c6_classification_table (name : String) :
    (suffixLower name = ".pdf" → classifyName name = FileKind.pdf) ∧
    ((suffixLower name = ".png" ∨ suffixLower name = ".jpg" ∨ suffixLower name = ".jpeg") →
      classifyName name = FileKind.image) ∧
    ((suffixLower name = ".mp3" ∨ suffixLower name = ".wav") →
      classifyName name = FileKind.audio) ∧
    (suffixLower name ≠ ".pdf" → suffixLower name ≠ ".png" → suffixLower name ≠ ".jpg" →
      suffixLower name ≠ ".jpeg" → suffixLower name ≠ ".mp3" → suffixLower name ≠ ".wav" →
      classifyName name = FileKind.unsupported) := by
  unfold classifyName classifyExt
  refine ⟨?_, ?_, ?_, ?_⟩
  · intro h; rw [h]; decide
  · intro h; rcases h with h | h | h <;> rw [h] <;> decide
  · intro h; rcases h with h | h <;> rw [h] <;> decide
  · intro hpdf hpng hjpg hjpeg hmp3 hwav
    rw [if_neg hpdf,
      if_neg (fun hor => hor.elim hjpg (fun hor2 => hor2.elim hjpeg hpng)),
      if_neg (fun hor => hor.elim hmp3 hwav)]

/-- C6 witness: the table applied to the concrete upper-case name
`Lecture.PDF`. -/
theorem c6_classification_witness :
    suffixLower "Lecture.PDF" = ".pdf" ∧ classifyName "Lecture.PDF" = FileKind.pdf :=
  ⟨by decide, (c6_classification_table "Lecture.PDF").1 (by decide)⟩

/-- C7: for every pdf input whose text extraction succeeds, the content
handed to the model is, after the instruction prompt, exactly two parts in
order: the single context string obtained by joining with blank lines the
chunks produced by the splitter called with chunk size 1000 and overlap 0
on the loaded page texts, followed by the opaque reference to the uploaded
binary. -/
theorem c7_pdf_content_shape (p : String) (env : Env) (handle : String)
    (pages : List String)
    (hext : suffixLower env.fileName = ".pdf")
    (hup : env.upload = Except.ok handle)
    (hload : env.loadPages = Except.ok pages) :
    (runCycle p env).sentContents =
      some [ContentPart.text
              (finalPrompt env.fileName env.difficulty env.formatType env.professorFocus),
            ContentPart.text (String.intercalate "\n\n" (env.split 1000 0 pages)),
            ContentPart.fileRef handle] := by
  unfold runCycle
  simp only [hup, hext, hload, if_pos]
  exact (runGeneratePhase_spec env handle
    [ContentPart.text (String.intercalate "\n\n" (env.split 1000 0 pages)),
     ContentPart.fileRef handle]).2.2.2.1

/-- C7 witness: the theorem applied to the concrete two-page PDF cycle. -/
theorem c7_pdf_content_witness :
    (runCycle "" envPdfOk).sentContents =
      some [ContentPart.text (finalPrompt "doc.pdf" "標準" "論述形式" ""),
            ContentPart.text (String.intercalate "\n\n" ["alpha", "beta"]),
            ContentPart.fileRef "files/u4"] :=
  c7_pdf_content_shape "" envPdfOk "files/u4" ["alpha", "beta"] (by decide) rfl rfl

/-- C8: for every model response that is blocked or contains no parts, the
stored result is the error message built around the block reason — the
model-supplied reason when feedback with a truthy block reason is readable
(its message when non-empty, else its reason string), and the fallback
不明な理由 otherwise — and the generation phase completes storing exactly
that value, raising nothing past the request boundary. -/
theorem c8_blocked_response_result (resp : ModelResponse) (hp : resp.parts = []) :
    storedResult (Except.ok resp) =
      "エラー: AI応答の取得に失敗しました (" ++ feedbackReason resp ++ ")" ∧
    (resp.promptFeedback = none → feedbackReason resp = "不明な理由") ∧
    (∀ fb, resp.promptFeedback = some fb → fb.blockReason = none →
      feedbackReason resp = "不明な理由") ∧
    (∀ fb r, resp.promptFeedback = some fb → fb.blockReason = some r →
      feedbackReason resp = (if fb.blockReasonMessage = "" then r else fb.blockReasonMessage)) ∧
    (∀ (env : Env) (handle : String) (t : List ContentPart),
      env.generate (ContentPart.text
        (finalPrompt env.fileName env.difficulty env.formatType env.professorFocus) :: t) =
          Except.ok resp →
      (runGeneratePhase env handle t).generatedContent = storedResult (Except.ok resp)) := by
  refine ⟨?_, ?_, ?_, ?_, ?_⟩
  · simp [storedResult, hp]
  · intro h; simp [feedbackReason, h]
  · intro fb h hbr; simp [feedbackReason, h, hbr]
  · intro fb r h hbr; simp [feedbackReason, h, hbr]
  · intro env handle t hg
    rw [(runGeneratePhase_spec env handle t).2.2.2.2, hg]

/-- C8 witness: the theorem applied to the concrete blocked response. -/
theorem c8_blocked_response_witness :
    blockedResp.parts = [] ∧
    storedResult (Except.ok blockedResp) =
      "エラー: AI応答の取得に失敗しました (" ++ feedbackReason blockedResp ++ ")" :=
  ⟨by decide, (c8_blocked_response_result blockedResp (by decide)).1⟩

/-- C9: after every generation cycle — success, caught error or early stop —
the local temporary file created for the upload no longer exists. -/
theorem c9_temp_file_removed (p : String) (env : Env) :
    (runCycle p env).tempFileExists = false :=
  (runCycle_cases p env).1

/-- C10: file-kind classification is case-insensitive in the extension:
classifying a filename yields the same kind as classifying the same name
with its extension lower-cased. -/
theorem c10_extension_case_insensitive (name : String) :
    classifyName (lowerSuffixName name) = classifyName name := by
  show classifyExt
      ⟨(suffixData (stemData name.data ++ (suffixData name.data).map lowerChar)).map lowerChar⟩
    = classifyExt ⟨(suffixData name.data).map lowerChar⟩
  rw [suffixData_combined, mapLower_idem]

end StudyMixer
